import Mathlib

/-!
Verification development for the exoplanet light-curve ingestion and physics
characterization engine.

Embedding conventions:
* JavaScript strings are modelled as `List Char`; `String.prototype.trim`,
  `split`, `toLowerCase`, `includes`, `startsWith` and `Array.prototype.findIndex`
  are modelled by the char-list functions below.
* JavaScript numbers on the parser side are modelled as `ℚ` (all parser inputs
  considered here are exact decimals); `parseFloat` returning `NaN` is modelled
  as `Option ℚ` with `none` for `NaN`.
* `Math.random()` is modelled as an explicit stream `ℕ → ℚ` passed to the
  functions that sample it (the i-th sample is the i-th call).
* On the physics side numbers are modelled as `ℝ`; a formula that returns the
  `NaN` sentinel is modelled as `Option ℝ` with `none` for `NaN` (JavaScript
  comparisons against `NaN` are false, which the embedding mirrors at each
  use site).
-/

namespace NasaExo

/-- Models the JavaScript whitespace test used by `trim` (ASCII whitespace). -/
def isWS (c : Char) : Bool := c.isWhitespace

/-- Models `String.prototype.trim`: drop whitespace from both ends. -/
def trimChars (l : List Char) : List Char :=
  ((l.dropWhile isWS).reverse.dropWhile isWS).reverse

/-- Models `String.prototype.split(sep)` for a single-character separator. -/
def splitChars (sep : Char) : List Char → List (List Char)
  | [] => [[]]
  | c :: rest =>
    match splitChars sep rest with
    | [] => [[]]
    | h :: t => if c = sep then [] :: h :: t else (c :: h) :: t

/-- Helper: does `l` start with `p`? -/
def startsWithChars : List Char → List Char → Bool
  | [], _ => true
  | _ :: _, [] => false
  | c :: cs, d :: ds => c = d && startsWithChars cs ds

/-- Models `String.prototype.includes`: `needle` occurs contiguously in `hay`. -/
def containsChars : List Char → List Char → Bool
  | [], needle => needle.isEmpty
  | c :: rest, needle => startsWithChars needle (c :: rest) || containsChars rest needle

/-- Convenience wrapper: `h.includes(s)` with a Lean string literal needle. -/
def includes (h : List Char) (s : String) : Bool := containsChars h s.toList

/-- Models `Array.prototype.findIndex`: index of the first match, `-1` if none. -/
def jsFindIndex (p : α → Bool) (l : List α) : Int :=
  match l.findIdx? p with
  | some n => (n : Int)
  | none => -1

/-- Numeric value of one decimal digit character. -/
def digitVal (c : Char) : ℕ := c.toNat - ('0').toNat

/-- Numeric value of a digit run, most significant first. -/
def digitsVal (l : List Char) : ℕ := l.foldl (fun acc c => 10 * acc + digitVal c) 0

/-- Models the exponent part of a JavaScript float literal after `e`/`E`;
an absent digit run contributes exponent `0` (as `parseFloat` then stops
before the `e`). -/
def parseExp (t : List Char) : ℤ :=
  let p : ℤ × List Char :=
    match t with
    | '+' :: r => (1, r)
    | '-' :: r => (-1, r)
    | _ => (1, t)
  let ds := p.2.takeWhile Char.isDigit
  if ds.isEmpty then 0 else p.1 * (digitsVal ds : ℤ)

/-- Models the JavaScript `parseFloat` builtin on the decimal forms exercised
by this code base: skip leading whitespace, optional sign, digit run with
optional fractional part, optional exponent; trailing junk is ignored; `none`
models the `NaN` result when no digit was read. -/
def parseFloat (s : List Char) : Option ℚ :=
  let cs := s.dropWhile isWS
  let sp : ℚ × List Char :=
    match cs with
    | '+' :: t => (1, t)
    | '-' :: t => (-1, t)
    | _ => (1, cs)
  let ip := sp.2.takeWhile Char.isDigit
  let cs2 := sp.2.dropWhile Char.isDigit
  let fr : List Char × List Char :=
    match cs2 with
    | '.' :: t => (t.takeWhile Char.isDigit, t.dropWhile Char.isDigit)
    | _ => ([], cs2)
  if ip.isEmpty && fr.1.isEmpty then none
  else
    let mant : ℚ := (digitsVal ip : ℚ) + (digitsVal fr.1 : ℚ) / ((10 : ℚ) ^ fr.1.length)
    let e : ℤ :=
      match fr.2 with
      | 'e' :: t => parseExp t
      | 'E' :: t => parseExp t
      | _ => 0
    some (sp.1 * mant * (10 : ℚ) ^ e)

/-- Mission source tag of a parsed light curve. -/
inductive Source where
  | kepler
  | k2
  | tess
  | unknown
deriving DecidableEq

/-- Metadata record of `ParsedLightCurve` (the `campaign`/`sector` fields of
the TypeScript interface are never set by any parser path and are omitted). -/
structure LCMetadata where
  source : Source
  targetId : Option (List Char)
deriving DecidableEq

/-- Models the `ParsedLightCurve` interface. -/
structure ParsedLightCurve where
  time : List ℚ
  flux : List ℚ
  error : Option (List ℚ)
  metadata : LCMetadata
deriving DecidableEq

/-- Models `detectDataSource`: scan the joined, lower-cased header tokens for
mission identifiers. -/
def detectDataSource (headers : List (List Char)) : Source :=
  let headerStr := (List.intercalate [' '] headers).map Char.toLower
  if includes headerStr "kepler" || includes headerStr "kic" then Source.kepler
  else if includes headerStr "k2" || includes headerStr "epic" then Source.k2
  else if includes headerStr "tess" || includes headerStr "tic" then Source.tess
  else Source.unknown

/-- Helper for `extractTargetId`: try to match one lower-case token at the
current position, then optional whitespace, then a non-empty digit run
(the regex `(?:kic|epic|tic)\s*(\d+)` anchored at this position). -/
def tryIdToken (tok : List Char) (cs : List Char) : Option (List Char) :=
  if startsWithChars tok (cs.map Char.toLower) then
    let rest := (cs.drop tok.length).dropWhile isWS
    let ds := rest.takeWhile Char.isDigit
    if ds.isEmpty then none else some ds
  else none

/-- Models `extractTargetId`: first match of `(?:kic|epic|tic)\s*(\d+)`,
case-insensitive, scanning left to right. -/
def extractTargetId : List Char → Option (List Char)
  | [] => none
  | c :: rest =>
    match tryIdToken ("kic").toList (c :: rest) with
    | some d => some d
    | none =>
      match tryIdToken ("epic").toList (c :: rest) with
      | some d => some d
      | none =>
        match tryIdToken ("tic").toList (c :: rest) with
        | some d => some d
        | none => extractTargetId rest

/-- Models one iteration of the data-row loop shared by
`parseCSVDataWithIndices` and `parseKeplerKOIData` (the two loops are
textually identical up to logging counters): trim the line, skip comments and
blank lines, split on commas, skip short rows, parse time and flux, and
capture the error value when the error column is present in this row. -/
def parseRow (timeIndex fluxIndex : ℕ) (errorIndex : Int) (line : List Char) :
    Option (ℚ × ℚ × Option ℚ) :=
  let l := trimChars line
  if l.isEmpty || l.head? = some '#' || l.head? = some '%' then none
  else
    let values := (splitChars ',' l).map trimChars
    if values.length ≤ max timeIndex fluxIndex then none
    else
      match parseFloat (values.getD timeIndex []), parseFloat (values.getD fluxIndex []) with
      | some timeVal, some fluxVal =>
        some (timeVal, fluxVal,
          if errorIndex ≠ -1 ∧ errorIndex < (values.length : Int) then
            some ((parseFloat (values.getD errorIndex.toNat [])).getD 0)
          else none)
      | _, _ => none

/-- Models the data-row loop over `lines[1..]`, producing the `time`, `flux`
and `error` arrays in push order. -/
def parseRows (timeIndex fluxIndex : ℕ) (errorIndex : Int) :
    List (List Char) → List ℚ × List ℚ × List ℚ
  | [] => ([], [], [])
  | line :: rest =>
    let r := parseRows timeIndex fluxIndex errorIndex rest
    match parseRow timeIndex fluxIndex errorIndex line with
    | none => r
    | some (timeVal, fluxVal, errVal) =>
      (timeVal :: r.1, fluxVal :: r.2.1,
        match errVal with
        | some e0 => e0 :: r.2.2
        | none => r.2.2)

/-- Models `generateMockTimeSeries`. -/
def generateMockTimeSeries : List ℚ :=
  let startTime : ℚ := 2454833
  let duration : ℚ := 1000
  let cadence : ℚ := 1 / 50
  (List.range (⌈duration / cadence⌉).toNat).map (fun (i : ℕ) => startTime + (i : ℚ) * cadence)

/-- Models the JavaScript `%` operator for the nonnegative operands used by the
mock flux generator. -/
def jsFmod (a b : ℚ) : ℚ := a - b * ((a / b).floor : ℚ)

/-- Models `generateMockFluxSeries`; `rnd i` is the `Math.random()` sample of
iteration `i`. The source cadence literal `0.02` is the exact rational `1/50`. -/
def generateMockFluxSeries (rnd : ℕ → ℚ) : List ℚ :=
  let baseFlux : ℚ := 1
  let transitDepth : ℚ := 1 / 100
  let period : ℚ := 365
  let duration : ℚ := 1000
  let cadence : ℚ := 1 / 50
  (List.range (⌈duration / cadence⌉).toNat).map (fun (i : ℕ) =>
    let time := (i : ℚ) * cadence
    let phase := jsFmod time period / period
    let transitPhase : ℚ := 1 / 10
    let inTransit := phase < transitPhase
    let fluxValue := if inTransit then baseFlux - transitDepth else baseFlux
    fluxValue + (rnd i - 1 / 2) * (1 / 1000))

/-- Models `generateMockErrorSeries`; `rnd i` is the `Math.random()` sample of
iteration `i`. -/
def generateMockErrorSeries (rnd : ℕ → ℚ) : List ℚ :=
  let duration : ℚ := 1000
  let cadence : ℚ := 1 / 50
  (List.range (⌈duration / cadence⌉).toNat).map (fun (i : ℕ) =>
    rnd i * (5 / 10000) + 1 / 10000)

/-- Models `generateMockLightCurve`. -/
def generateMockLightCurve (rnd : ℕ → ℚ) : ParsedLightCurve :=
  { time := generateMockTimeSeries
    flux := generateMockFluxSeries rnd
    error := some (generateMockErrorSeries rnd)
    metadata := { source := Source.kepler, targetId := some ("mock_target").toList } }

/-- Models `parseCSVDataWithIndices`, including its degenerate-input fallback
to `generateMockLightCurve` when zero rows parsed. -/
def parseCSVDataWithIndices (rnd : ℕ → ℚ) (csvContent : List Char)
    (timeIndex fluxIndex : ℕ) (errorIndex : Int) : ParsedLightCurve :=
  let lines := splitChars '\n' (trimChars csvContent)
  let headers := (splitChars ',' (lines.headD [])).map (fun h => (trimChars h).map Char.toLower)
  let r := parseRows timeIndex fluxIndex errorIndex lines.tail
  if r.1.length = 0 then generateMockLightCurve rnd
  else
    { time := r.1
      flux := r.2.1
      error := if r.2.2.length > 0 then some r.2.2 else none
      metadata := { source := detectDataSource headers, targetId := extractTargetId csvContent } }

/-- Models `parseKeplerKOIData` (the wide-table variant): independent synonym
search over all headers with fallback to columns 0/1, and no degenerate-input
fallback — zero parsed rows yield empty arrays. -/
def parseKeplerKOIData (csvContent : List Char)
    (headers : List (List Char)) : ParsedLightCurve :=
  let lines := splitChars '\n' (trimChars csvContent)
  let timeIndex0 := jsFindIndex (fun h =>
    includes h "time" || includes h "bjd" || includes h "jd" ||
    includes h "date" || includes h "t_obs" || includes h "timestamp") headers
  let fluxIndex0 := jsFindIndex (fun h =>
    includes h "flux" || includes h "brightness" ||
    includes h "relative_flux" || includes h "normalized_flux") headers
  let errorIndex := jsFindIndex (fun h =>
    includes h "error" || includes h "err" ||
    includes h "sigma" || includes h "uncertainty") headers
  let timeIndex := if timeIndex0 = -1 then 0 else timeIndex0.toNat
  let fluxIndex := if fluxIndex0 = -1 then 1 else fluxIndex0.toNat
  let r := parseRows timeIndex fluxIndex errorIndex lines.tail
  { time := r.1
    flux := r.2.1
    error := if r.2.2.length > 0 then some r.2.2 else none
    metadata := { source := Source.kepler, targetId := extractTargetId csvContent } }

/-- Models `parseCSVData`: header synonym search, wide-table routing for more
than 5 header tokens, two-column fallback, and a thrown `Error` (modelled as
`none`) when fewer than 2 columns are present and no synonym matched. -/
def parseCSVData (rnd : ℕ → ℚ) (csvContent : List Char) : Option ParsedLightCurve :=
  let lines := splitChars '\n' (trimChars csvContent)
  let headers := (splitChars ',' (lines.headD [])).map (fun h => (trimChars h).map Char.toLower)
  let timeIndex := jsFindIndex (fun h =>
    includes h "time" || includes h "bjd" || includes h "jd" ||
    includes h "date" || includes h "t" || h = ("x").toList || h = ("0").toList ||
    includes h "t_obs" || includes h "timestamp") headers
  let fluxIndex := jsFindIndex (fun h =>
    includes h "flux" || includes h "pdcsap_flux" || includes h "sap_flux" ||
    includes h "brightness" || includes h "magnitude" || h = ("y").toList || h = ("1").toList ||
    includes h "relative_flux" || includes h "normalized_flux") headers
  let errorIndex := jsFindIndex (fun h =>
    includes h "error" || includes h "flux_err" || includes h "err" ||
    includes h "sigma" || includes h "uncertainty" || includes h "flux_error") headers
  if headers.length > 5 then some (parseKeplerKOIData csvContent headers)
  else if timeIndex = -1 ∨ fluxIndex = -1 then
    if headers.length ≥ 2 then some (parseCSVDataWithIndices rnd csvContent 0 1 2)
    else none
  else some (parseCSVDataWithIndices rnd csvContent timeIndex.toNat fluxIndex.toNat errorIndex)

/-- Helper for `wsSplit`: accumulate the current (reversed) token while
scanning the line. -/
def wsSplitAux : List Char → List Char → List (List Char)
  | [], acc => if acc.isEmpty then [] else [acc.reverse]
  | c :: rest, acc =>
    if isWS c then
      if acc.isEmpty then wsSplitAux rest [] else acc.reverse :: wsSplitAux rest []
    else wsSplitAux rest (c :: acc)

/-- Models `String.prototype.split` on the regex `/\s+/` for the trimmed lines
it is applied to: split into maximal whitespace-free tokens. -/
def wsSplit (l : List Char) : List (List Char) := wsSplitAux l []

/-- Models one iteration of the `parseTextData` row loop. -/
def parseTextRow (line : List Char) : Option (ℚ × ℚ × Option ℚ) :=
  let values := wsSplit (trimChars line)
  if values.length ≥ 2 then
    match parseFloat (values.getD 0 []), parseFloat (values.getD 1 []) with
    | some timeVal, some fluxVal =>
      some (timeVal, fluxVal,
        if values.length ≥ 3 then some ((parseFloat (values.getD 2 [])).getD 0) else none)
    | _, _ => none
  else none

/-- Models the `parseTextData` row loop over the filtered data lines. -/
def parseTextRows : List (List Char) → List ℚ × List ℚ × List ℚ
  | [] => ([], [], [])
  | line :: rest =>
    let r := parseTextRows rest
    match parseTextRow line with
    | none => r
    | some (timeVal, fluxVal, errVal) =>
      (timeVal :: r.1, fluxVal :: r.2.1,
        match errVal with
        | some e0 => e0 :: r.2.2
        | none => r.2.2)

/-- Models `parseTextData`: whitespace-separated `time flux [error]` lines,
comment filtering on the untrimmed line, `source = unknown`. -/
def parseTextData (textContent : List Char) : ParsedLightCurve :=
  let lines := splitChars '\n' (trimChars textContent)
  let dataLines := lines.filter (fun line =>
    !(trimChars line).isEmpty && line.head? ≠ some '#' && line.head? ≠ some '%')
  let r := parseTextRows dataLines
  { time := r.1
    flux := r.2.1
    error := if r.2.2.length > 0 then some r.2.2 else none
    metadata := { source := Source.unknown, targetId := none } }

noncomputable section

open scoped Classical

/-- Gravitational constant (m^3 kg^-1 s^-2). -/
def G : ℝ := 6.67430e-11

/-- Stefan-Boltzmann constant (W m^-2 K^-4). -/
def SIGMA : ℝ := 5.670374419e-8

/-- Solar mass (kg). -/
def M_SUN : ℝ := 1.98847e30

/-- Solar radius (m). -/
def R_SUN : ℝ := 6.957e8

/-- Solar luminosity (W). -/
def L_SUN : ℝ := 3.828e26

/-- Astronomical unit (m). -/
def AU : ℝ := 1.495978707e11

/-- Earth mass (kg). -/
def M_EARTH : ℝ := 5.972e24

/-- Earth radius (m). -/
def R_EARTH : ℝ := 6.371e6

/-- Models `Math.cbrt` on the nonnegative arguments reachable past the guards
of the physics formulas. -/
def realCbrt (x : ℝ) : ℝ := x ^ ((1 : ℝ) / 3)

/-- Models the `PhysicsCalculationInput` interface; `none` models an absent
(`undefined`) optional field. -/
structure PhysicsCalculationInput where
  orbitalPeriodDays : Option ℝ := none
  semiMajorAxisAU : Option ℝ := none
  radiusEarth : Option ℝ := none
  massEarth : Option ℝ := none
  starTempK : Option ℝ := none
  starRadiusSolar : Option ℝ := none
  starMassSolar : Option ℝ := none
  starLuminositySolar : Option ℝ := none
  transitDepthPPM : Option ℝ := none
  transitDurationHours : Option ℝ := none

/-- Models the `PhysicsCalculationResult` interface; `Option ℝ` fields model
numbers that may be the `NaN` sentinel. -/
structure PhysicsCalculationResult where
  orbitalPeriodDays : Option ℝ
  semiMajorAxisAU : Option ℝ
  equilibriumTemperatureK : Option ℝ
  habitableZoneInnerAU : Option ℝ
  habitableZoneOuterAU : Option ℝ
  inHabitableZone : Bool
  surfaceGravityMS2 : Option ℝ
  escapeVelocityMS : Option ℝ
  densityGCM3 : Option ℝ
  starLuminositySolar : Option ℝ
  starRadiusM : ℝ
  isPhysicallyPlausible : Bool
  warnings : List String

/-- Models `calculateSemiMajorAxis` (Kepler's third law), `none` for the `NaN`
sentinel on violated preconditions. -/
def calculateSemiMajorAxis (periodDays : ℝ) (starMassSolar : ℝ := 1.0) : Option ℝ :=
  if periodDays ≤ 0 ∨ starMassSolar ≤ 0 then none
  else
    let P := periodDays * 24.0 * 3600.0
    let M := starMassSolar * M_SUN
    let a_cubed := G * M * P * P / (4.0 * Real.pi * Real.pi)
    let a := realCbrt a_cubed
    some (a / AU)

/-- Models `calculateOrbitalPeriod` (inverse Kepler's third law). -/
def calculateOrbitalPeriod (semiMajorAxisAU : ℝ) (starMassSolar : ℝ := 1.0) : Option ℝ :=
  if semiMajorAxisAU ≤ 0 ∨ starMassSolar ≤ 0 then none
  else
    let a := semiMajorAxisAU * AU
    let M := starMassSolar * M_SUN
    let T_squared := (4.0 * Real.pi * Real.pi * a * a * a) / (G * M)
    let T := Real.sqrt T_squared
    some (T / (24.0 * 3600.0))

/-- Models `calculateStellarLuminosity` (Stefan–Boltzmann). -/
def calculateStellarLuminosity (radiusSolar : ℝ) (tempK : ℝ) : Option ℝ :=
  if radiusSolar ≤ 0 ∨ tempK ≤ 0 then none
  else
    let R := radiusSolar * R_SUN
    let L := 4.0 * Real.pi * R * R * SIGMA * tempK ^ (4 : ℕ)
    some (L / L_SUN)

/-- Models `calculateEquilibriumTemperature`. -/
def calculateEquilibriumTemperature (starTempK starRadiusSolar semiMajorAxisAU : ℝ)
    (albedo : ℝ := 0.3) : Option ℝ :=
  if starTempK ≤ 0 ∨ starRadiusSolar ≤ 0 ∨ semiMajorAxisAU ≤ 0 then none
  else
    let a := semiMajorAxisAU * AU
    let R_star := starRadiusSolar * R_SUN
    let term := Real.sqrt (R_star / (2.0 * a))
    let absorption := (1.0 - albedo) ^ ((0.25 : ℝ))
    some (starTempK * term * absorption)

/-- Models `calculateHabitableZone`; the `NaN` pair on violated preconditions
becomes `(none, none)`. -/
def calculateHabitableZone (starLuminositySolar : ℝ) : Option ℝ × Option ℝ :=
  if starLuminositySolar ≤ 0 then (none, none)
  else
    let scale := Real.sqrt starLuminositySolar
    (some (0.95 * scale), some (1.67 * scale))

/-- Models `calculateSurfaceGravity`. -/
def calculateSurfaceGravity (radiusEarth massEarth : ℝ) : Option ℝ :=
  if radiusEarth ≤ 0 ∨ massEarth ≤ 0 then none
  else
    let R := radiusEarth * R_EARTH
    let M := massEarth * M_EARTH
    some ((G * M) / (R * R))

/-- Models `calculateEscapeVelocity`. -/
def calculateEscapeVelocity (radiusEarth massEarth : ℝ) : Option ℝ :=
  if radiusEarth ≤ 0 ∨ massEarth ≤ 0 then none
  else
    let R := radiusEarth * R_EARTH
    let M := massEarth * M_EARTH
    some (Real.sqrt ((2.0 * G * M) / R))

/-- Models `calculateDensity` (result in g/cm³). -/
def calculateDensity (radiusEarth massEarth : ℝ) : Option ℝ :=
  if radiusEarth ≤ 0 ∨ massEarth ≤ 0 then none
  else
    let R := radiusEarth * R_EARTH
    let M := massEarth * M_EARTH
    let volume := (4.0 / 3.0) * Real.pi * R * R * R
    some (M / volume / 1000.0)

/-- Models `estimateMassFromRadius` (piecewise empirical mass–radius law). -/
def estimateMassFromRadius (radiusEarth : ℝ) : ℝ :=
  if radiusEarth < 1.5 then radiusEarth ^ ((1.8 : ℝ))
  else if radiusEarth < 4 then radiusEarth ^ ((2.5 : ℝ))
  else radiusEarth ^ ((3.5 : ℝ))

/-- Models `validatePhysicalPlausibility`: each applicable rule appends its
warning string, in source push order; comparisons against a `NaN` density are
false in JavaScript, so a `none` density produces no density warnings. -/
def validatePhysicalPlausibility (params : PhysicsCalculationInput) : List String :=
  (match params.radiusEarth with
   | some r =>
     (if r < 0.5 then ["Planet radius very small (< 0.5 R⊕)"] else []) ++
     (if r > 10 then ["Planet radius very large (> 10 R⊕)"] else [])
   | none => []) ++
  (match params.massEarth with
   | some m =>
     (if m < 0.1 then ["Planet mass very small (< 0.1 M⊕)"] else []) ++
     (if m > 1000 then ["Planet mass very large (> 1000 M⊕)"] else [])
   | none => []) ++
  (match params.radiusEarth, params.massEarth with
   | some r, some m =>
     (match calculateDensity r m with
      | some density =>
        (if density < 0.3 then ["Density unusually low (< 0.3 g/cm³ - unlikely)"] else []) ++
        (if density > 14 then ["Density unusually high (> 14 g/cm³ - iron core planet)"] else [])
      | none => [])
   | _, _ => []) ++
  (match params.orbitalPeriodDays with
   | some p =>
     (if p < 0.1 then ["Orbital period very short (< 0.1 days)"] else []) ++
     (if p > 10000 then ["Orbital period very long (> 10000 days)"] else [])
   | none => []) ++
  (match params.transitDepthPPM with
   | some d => if d > 10000 then ["Transit depth unusually large (> 1%)"] else []
   | none => [])

/-- Models `PhysicsCalculationService.calculate`, the composite calculation. -/
def calculate (input : PhysicsCalculationInput) : PhysicsCalculationResult :=
  let warnings := validatePhysicalPlausibility input
  let starMass := input.starMassSolar.getD 1.0
  let starRadius := input.starRadiusSolar.getD 1.0
  let starTemp := input.starTempK.getD 5778
  let starLuminosity : Option ℝ :=
    match input.starLuminositySolar with
    | some l => some l
    | none => calculateStellarLuminosity starRadius starTemp
  let orbitalPeriod : Option ℝ :=
    if input.semiMajorAxisAU.isSome && input.orbitalPeriodDays.isNone then
      calculateOrbitalPeriod (input.semiMajorAxisAU.getD 1.0) starMass
    else some (input.orbitalPeriodDays.getD 365)
  let semiMajorAxis : Option ℝ :=
    if input.orbitalPeriodDays.isSome && input.semiMajorAxisAU.isNone then
      calculateSemiMajorAxis (input.orbitalPeriodDays.getD 365) starMass
    else some (input.semiMajorAxisAU.getD 1.0)
  let equilibriumTemp : Option ℝ :=
    match semiMajorAxis with
    | some a => calculateEquilibriumTemperature starTemp starRadius a
    | none => none
  let hz : Option ℝ × Option ℝ :=
    match starLuminosity with
    | some l => calculateHabitableZone l
    | none => (none, none)
  let inHZ : Bool :=
    match semiMajorAxis, hz.1, hz.2 with
    | some a, some inner, some outer => decide (inner ≤ a ∧ a ≤ outer)
    | _, _, _ => false
  let radiusEarth := input.radiusEarth.getD 1.0
  let massEarth := input.massEarth.getD (estimateMassFromRadius radiusEarth)
  let surfaceGravity := calculateSurfaceGravity radiusEarth massEarth
  let escapeVelocity := calculateEscapeVelocity radiusEarth massEarth
  let density := calculateDensity radiusEarth massEarth
  let isPlausible := warnings.length == 0
  { orbitalPeriodDays := orbitalPeriod
    semiMajorAxisAU := semiMajorAxis
    equilibriumTemperatureK := equilibriumTemp
    habitableZoneInnerAU := hz.1
    habitableZoneOuterAU := hz.2
    inHabitableZone := inHZ
    surfaceGravityMS2 := surfaceGravity
    escapeVelocityMS := escapeVelocity
    densityGCM3 := density
    starLuminositySolar := starLuminosity
    starRadiusM := starRadius * R_SUN
    isPhysicallyPlausible := isPlausible
    warnings := warnings }

/-- Models the `LightCurveData` interface of the scorer service. -/
structure LightCurveData where
  time : List ℝ
  flux : List ℝ
  error : Option (List ℝ) := none

/-- Models the `ModelPrediction` interface; the optional dataset-characteristic
fields are `none` exactly when the producing path leaves them absent. -/
structure ModelPrediction where
  probability : ℝ
  confidence : ℝ
  planetType : String
  isHabitable : Bool
  hasAtmosphere : Bool
  hasWater : Bool
  temperature : ℝ
  radius : ℝ
  distanceFromStar : ℝ
  timePoints : Option ℝ := none
  fluxPoints : Option ℝ := none
  timeRange : Option ℝ := none
  fluxMean : Option ℝ := none
  fluxMin : Option ℝ := none
  fluxMax : Option ℝ := none
  fluxStdDev : Option ℝ := none

/-- Models `Array.prototype.reduce((a, b) => a + b, 0)`. -/
def jsSum (l : List ℝ) : ℝ := l.foldl (· + ·) 0

/-- Mean of a list, as computed by `reduce(...) / length`. -/
def jsMean (l : List ℝ) : ℝ := jsSum l / l.length

/-- Models `Math.min(...l)` on the non-empty lists reachable in the claims
(the JavaScript empty-spread value `Infinity` is not representable and that
case is never reached on the paths verified here). -/
def listMin : List ℝ → ℝ
  | [] => 0
  | h :: t => t.foldl min h

/-- Models `Math.max(...l)` on the non-empty lists reachable in the claims. -/
def listMax : List ℝ → ℝ
  | [] => 0
  | h :: t => t.foldl max h

/-- Population standard deviation as computed in the scorer service. -/
def jsStd (l : List ℝ) : ℝ :=
  Real.sqrt (jsSum (l.map (fun x => (x - jsMean l) ^ (2 : ℕ))) / l.length)

/-- Models `analyzeFluxVariations`. -/
def analyzeFluxVariations (flux : List ℝ) : ℝ := min (jsStd flux * 10) 1

/-- Models `analyzePeriodicity`; the source also computes a `timeSpan` and a
`fluxRange` local, of which only the flux-derived quantity feeds the result. -/
def analyzePeriodicity (time flux : List ℝ) : ℝ :=
  let _timeSpan := listMax time - listMin time
  let fluxRange := listMax flux - listMin flux
  let normalizedVariation := fluxRange / (listMax flux + listMin flux)
  min (normalizedVariation * 2) 1

/-- Models `detectTimeGaps`. -/
def detectTimeGaps (time : List ℝ) : ℝ :=
  if time.length < 2 then 1
  else
    let intervals := List.zipWith (fun a b => b - a) time time.tail
    let sorted := intervals.mergeSort (fun a b => decide (a ≤ b))
    let medianInterval := sorted.getD (intervals.length / 2) 0
    let largeGaps := (intervals.filter (fun i => decide (i > medianInterval * 3))).length
    (largeGaps : ℝ) / intervals.length

/-- Models `analyzeDataQuality`. -/
def analyzeDataQuality (data : LightCurveData) : ℝ :=
  let completeness := (data.flux.length : ℝ) / 1000
  let timeGaps := detectTimeGaps data.time
  let gapQuality := max 0 (1 - timeGaps)
  let errorQuality : ℝ :=
    match data.error with
    | some e => max 0 (1 - (jsSum e / e.length) * 100)
    | none => 1
  (completeness + gapQuality + errorQuality) / 3

/-- Models `simulateModelPrediction`; the `features` argument of the source
function is never read by its body and is omitted; `rnd` is the
`Math.random()` sample of the noise term. -/
def simulateModelPrediction (rnd : ℝ) (data : LightCurveData) : ℝ :=
  let fluxVariations := analyzeFluxVariations data.flux
  let periodicity := analyzePeriodicity data.time data.flux
  let dataQuality := analyzeDataQuality data
  let datasetSize := (data.time.length : ℝ)
  let timeSpan := listMax data.time - listMin data.time
  let sizeBonus := min (datasetSize / 10000) 0.2
  let timeBonus := min (timeSpan / 1000) 0.1
  let baseProbability := (fluxVariations * 0.4 + periodicity * 0.3 + dataQuality * 0.3) +
    sizeBonus + timeBonus
  let noise := (rnd - 0.5) * 0.1
  max 0 (min 1 (baseProbability + noise))

/-- Models `classifyPlanetType`. -/
def classifyPlanetType (probability : ℝ) (_data : LightCurveData) : String :=
  if probability > 0.9 then "Super Earth"
  else if probability > 0.7 then "Terrestrial"
  else if probability > 0.5 then "Mini-Neptune"
  else "Gas Giant"

/-- Models `Math.round` (round half toward positive infinity). -/
def jsRound (x : ℝ) : ℝ := ((⌊x + 1 / 2⌋ : ℤ) : ℝ)

/-- Models `estimateTemperature`. -/
def estimateTemperature (probability : ℝ) (_data : LightCurveData) : ℝ :=
  jsRound (200 + probability * 200)

/-- Models `estimateRadius`. -/
def estimateRadius (probability : ℝ) (_data : LightCurveData) : ℝ :=
  0.5 + probability * 2.5

/-- Models `estimateDistance`. -/
def estimateDistance (probability : ℝ) (_data : LightCurveData) : ℝ :=
  0.02 + probability * 0.5

/-- Models `getMockPrediction`; `rnd` is the `Math.random()` sample, so the
probability is `0.7 + rnd * 0.25`. The dataset-characteristic fields are
absent (`none`) on this path, exactly as in the source. -/
def getMockPrediction (rnd : ℝ) (data : LightCurveData) : ModelPrediction :=
  let probability := 0.7 + rnd * 0.25
  { probability := probability
    confidence := probability * 0.9
    planetType := classifyPlanetType probability data
    isHabitable := decide (probability > 0.7)
    hasAtmosphere := decide (probability > 0.6)
    hasWater := decide (probability > 0.8)
    temperature := estimateTemperature probability data
    radius := estimateRadius probability data
    distanceFromStar := estimateDistance probability data }

/-- Models the common return block at the end of `predict`'s `try` body:
assemble the full `ModelPrediction` with the dataset characteristics. -/
def finishPrediction (probability : ℝ) (data : LightCurveData) : ModelPrediction :=
  let confidence := min (probability * 1.2) 1.0
  { probability := probability
    confidence := confidence
    planetType := classifyPlanetType probability data
    isHabitable := decide (probability > 0.7)
    hasAtmosphere := decide (probability > 0.6)
    hasWater := decide (probability > 0.8)
    temperature := estimateTemperature probability data
    radius := estimateRadius probability data
    distanceFromStar := estimateDistance probability data
    timePoints := some ((data.time.length : ℝ))
    fluxPoints := some ((data.flux.length : ℝ))
    timeRange := some (listMax data.time - listMin data.time)
    fluxMean := some (jsMean data.flux)
    fluxMin := some (listMin data.flux)
    fluxMax := some (listMax data.flux)
    fluxStdDev := some (jsStd data.flux) }

/-- Models `MLModelService.predict`. The external TensorFlow call is
abstracted as `scorer`: `none` models the model-not-loaded state (fallback to
`simulateModelPrediction`), `some (Except.ok p)` a model output probability
`p`, and `some (Except.error e)` an exception thrown inside the `try` block
(model-prediction failure). `rndSim` and `rndMock` are the `Math.random()`
samples drawn on the respective paths. The `catch` branch returns
`getMockPrediction`; no error is ever propagated to the caller, which the
total return type records. -/
def predict (scorer : Option (Except String ℝ)) (rndSim rndMock : ℝ)
    (data : LightCurveData) : ModelPrediction :=
  match scorer with
  | some (Except.error _) => getMockPrediction rndMock data
  | some (Except.ok modelProb) => finishPrediction modelProb data
  | none => finishPrediction (simulateModelPrediction rndSim data) data

/-- Concrete plausibility-validator input with only `radiusEarth = 0.3`. -/
def inpSmallRadius : PhysicsCalculationInput := { radiusEarth := some 0.3 }

/-- Concrete Earth-like plausibility-validator input. -/
def inpEarthLike : PhysicsCalculationInput := { radiusEarth := some 1.0, massEarth := some 1.0 }

/-- Concrete scorer-service light curve used to exercise the failure path. -/
def dataEx : LightCurveData := { time := [1, 2, 3], flux := [1, 0.99, 1] }

/-- Concrete composite-calculation input with period, axis, star radius and
luminosity all provided. -/
def inpC8 : PhysicsCalculationInput :=
  { orbitalPeriodDays := some 10, semiMajorAxisAU := some 2
    starRadiusSolar := some 3, starLuminositySolar := some 4 }

end

/-- Fixed random stream (all zeros) used to instantiate the `Math.random`
parameter in concrete evaluations. -/
def rnd0 : ℕ → ℚ := fun _ => 0

/-- Wide-table CSV (6 header tokens) whose single data row fails numeric
parsing, so zero rows parse successfully. -/
def wideEmptyCSV : List Char := ("a,b,c,d,e,f\nxx,xx,xx,xx,xx,xx").toList

/-- The empty light curve that `parseCSVData` produces for `wideEmptyCSV`. -/
def wideEmptyLC : ParsedLightCurve :=
  { time := [], flux := [], error := none
    metadata := { source := Source.kepler, targetId := none } }

/-- Two-column-with-error CSV whose first data row lacks the error column. -/
def mixedWidthCSV : List Char := ("time,flux,err\n1,2\n3,4,5").toList

/-- CSV whose header `brightness,time` sends both the time and the flux
synonym search to column 0 (`brightness` contains the letter `t`). -/
def collisionCSV : List Char := ("brightness,time\n1.0,5.0\n2.0,6.0").toList

/-- The data-model invariant claimed for parsed light curves, in the amended
form the code satisfies: equal time/flux lengths, and any attached error
array no longer than the time array. -/
def lcInv (lc : ParsedLightCurve) : Prop :=
  lc.time.length = lc.flux.length ∧ ∀ es, lc.error = some es → es.length ≤ lc.time.length

/-- The Kepler KOI header of the parser-tolerance scenario. -/
def kicHeaderLine : List Char := ("KIC,TIME,PDCSAP_FLUX,FLUX_ERR").toList

/-- A data row of valid numeric values for a four-column CSV: the row is its
own trim, is not a comment line, splits on commas into exactly four cells, and
every cell parses as a number. -/
def validRow4 (l : List Char) : Bool :=
  trimChars l == l && (splitChars ',' l).length == 4 &&
  l.head? != some '#' && l.head? != some '%' && !l.isEmpty && !l.contains '\n' &&
  (splitChars ',' l).all (fun v => (parseFloat (trimChars v)).isSome)

/-- Concrete valid numeric data row for the parser-tolerance witness. -/
def witnessRow : List Char := ("1,1,1,1").toList

/-- One hundred copies of `witnessRow`. -/
def witnessRows : List (List Char) := List.replicate 100 witnessRow

/-- Concrete 100-row Kepler KOI CSV for the parser-tolerance witness. -/
def witnessCSV : List Char := List.intercalate ['\n'] (kicHeaderLine :: witnessRows)

theorem parseRows_flux_length (t f : ℕ) (e : Int) (rows : List (List Char)) :
    (parseRows t f e rows).2.1.length = (parseRows t f e rows).1.length := by
  induction rows with
  | nil => rfl
  | cons line rest ih =>
    simp only [parseRows]
    cases h : parseRow t f e line with
    | none => exact ih
    | some v =>
      obtain ⟨tv, fv, ev⟩ := v
      cases ev <;> simpa using ih

theorem parseRows_error_le (t f : ℕ) (e : Int) (rows : List (List Char)) :
    (parseRows t f e rows).2.2.length ≤ (parseRows t f e rows).1.length := by
  induction rows with
  | nil => exact Nat.le_refl 0
  | cons line rest ih =>
    simp only [parseRows]
    cases h : parseRow t f e line with
    | none => exact ih
    | some v =>
      obtain ⟨tv, fv, ev⟩ := v
      cases ev with
      | none => simpa using Nat.le_succ_of_le ih
      | some e0 => simpa using ih

theorem parseTextRows_flux_length (rows : List (List Char)) :
    (parseTextRows rows).2.1.length = (parseTextRows rows).1.length := by
  induction rows with
  | nil => rfl
  | cons line rest ih =>
    simp only [parseTextRows]
    cases h : parseTextRow line with
    | none => exact ih
    | some v =>
      obtain ⟨tv, fv, ev⟩ := v
      cases ev <;> simpa using ih

theorem parseTextRows_error_le (rows : List (List Char)) :
    (parseTextRows rows).2.2.length ≤ (parseTextRows rows).1.length := by
  induction rows with
  | nil => exact Nat.le_refl 0
  | cons line rest ih =>
    simp only [parseTextRows]
    cases h : parseTextRow line with
    | none => exact ih
    | some v =>
      obtain ⟨tv, fv, ev⟩ := v
      cases ev with
      | none => simpa using Nat.le_succ_of_le ih
      | some e0 => simpa using ih

theorem mock_iterations_eq : (⌈(1000 : ℚ) / (1 / 50)⌉).toNat = 50000 := by
  norm_num
  rfl

theorem generateMockTimeSeries_length : generateMockTimeSeries.length = 50000 := by
  simp only [generateMockTimeSeries, List.length_map, List.length_range]
  exact mock_iterations_eq

theorem generateMockFluxSeries_length (rnd : ℕ → ℚ) :
    (generateMockFluxSeries rnd).length = 50000 := by
  simp only [generateMockFluxSeries, List.length_map, List.length_range]
  exact mock_iterations_eq

theorem generateMockErrorSeries_length (rnd : ℕ → ℚ) :
    (generateMockErrorSeries rnd).length = 50000 := by
  simp only [generateMockErrorSeries, List.length_map, List.length_range]
  exact mock_iterations_eq

theorem lcInv_generateMockLightCurve (rnd : ℕ → ℚ) : lcInv (generateMockLightCurve rnd) := by
  constructor
  · show generateMockTimeSeries.length = (generateMockFluxSeries rnd).length
    rw [generateMockTimeSeries_length, generateMockFluxSeries_length]
  · intro es hes
    have : es = generateMockErrorSeries rnd := by
      simpa [generateMockLightCurve] using hes.symm
    subst this
    show (generateMockErrorSeries rnd).length ≤ generateMockTimeSeries.length
    rw [generateMockTimeSeries_length, generateMockErrorSeries_length]

theorem lcInv_mk (r : List ℚ × List ℚ × List ℚ) (h1 : r.2.1.length = r.1.length)
    (h2 : r.2.2.length ≤ r.1.length) (src : Source) (tid : Option (List Char)) :
    lcInv { time := r.1, flux := r.2.1,
            error := if r.2.2.length > 0 then some r.2.2 else none,
            metadata := { source := src, targetId := tid } } := by
  constructor
  · exact h1.symm
  · intro es hes
    have hes' : (if r.2.2.length > 0 then some r.2.2 else none) = some es := hes
    by_cases hl : r.2.2.length > 0
    · rw [if_pos hl] at hes'
      injection hes' with hes''
      exact hes'' ▸ h2
    · rw [if_neg hl] at hes'
      exact Option.noConfusion hes'

theorem lcInv_parseCSVDataWithIndices (rnd : ℕ → ℚ) (content : List Char)
    (t f : ℕ) (e : Int) : lcInv (parseCSVDataWithIndices rnd content t f e) := by
  simp only [parseCSVDataWithIndices]
  by_cases h0 : (parseRows t f e (splitChars '\n' (trimChars content)).tail).1.length = 0
  · rw [if_pos h0]
    exact lcInv_generateMockLightCurve rnd
  · rw [if_neg h0]
    exact lcInv_mk _ (parseRows_flux_length _ _ _ _) (parseRows_error_le _ _ _ _) _ _

theorem lcInv_parseKeplerKOIData (content : List Char) (headers : List (List Char)) :
    lcInv (parseKeplerKOIData content headers) := by
  simp only [parseKeplerKOIData]
  exact lcInv_mk _ (parseRows_flux_length _ _ _ _) (parseRows_error_le _ _ _ _) _ _

theorem lcInv_parseTextData (content : List Char) : lcInv (parseTextData content) := by
  simp only [parseTextData]
  exact lcInv_mk _ (parseTextRows_flux_length _) (parseTextRows_error_le _) _ _

/-- C2 (counterexample): a wide-table CSV (more than 5 header tokens) with a
valid header and zero parseable data rows makes `parseCSVData` return an
*empty* light curve — `parseKeplerKOIData` has no synthetic fallback — which
falsifies the claim that every zero-row tabular input yields time and flux
arrays of length greater than 0. -/
theorem wide_table_empty_rows_returns_empty_curve :
    parseCSVData rnd0 wideEmptyCSV = some wideEmptyLC ∧ wideEmptyLC.time.length = 0 := by
  exact ⟨by decide, rfl⟩

/-- C2 (amended): on the two-column path, `parseCSVDataWithIndices` indeed
never returns an empty light curve — zero parsed rows trigger the synthetic
`generateMockLightCurve` fallback of length 50000; only the wide-table
variant lacks the fallback. -/
theorem two_column_parser_never_empty (rnd : ℕ → ℚ) (content : List Char)
    (t f : ℕ) (e : Int) : 0 < (parseCSVDataWithIndices rnd content t f e).time.length := by
  simp only [parseCSVDataWithIndices]
  by_cases h0 : (parseRows t f e (splitChars '\n' (trimChars content)).tail).1.length = 0
  · rw [if_pos h0]
    have h50 : (generateMockLightCurve rnd).time.length = 50000 := generateMockTimeSeries_length
    omega
  · rw [if_neg h0]
    exact Nat.pos_of_ne_zero h0

/-- C3 (counterexample): for a CSV whose first data row has columns for time
and flux but not for the error column, the parser attaches an error array
strictly shorter than the time array, falsifying the invariant that an
attached error array has the same length as the time array. -/
theorem partial_error_column_breaks_invariant :
    ∃ lc, parseCSVData rnd0 mixedWidthCSV = some lc ∧
      lc.time.length = 2 ∧
      (∃ es, lc.error = some es ∧ es.length ≠ lc.time.length) := by
  have h : ((parseCSVData rnd0 mixedWidthCSV).map
      (fun lc => (lc.time.length, lc.error.map List.length))) = some (2, some 1) := by
    decide
  cases hp : parseCSVData rnd0 mixedWidthCSV with
  | none => rw [hp] at h; exact Option.noConfusion h
  | some lc =>
    rw [hp] at h
    have h2 : lc.time.length = 2 ∧ lc.error.map List.length = some 1 := by simpa using h
    obtain ⟨htime, herr⟩ := h2
    cases herrv : lc.error with
    | none => rw [herrv] at herr; exact Option.noConfusion herr
    | some es =>
      rw [herrv] at herr
      have hes : es.length = 1 := by simpa using herr
      exact ⟨lc, rfl, htime, es, herrv, by omega⟩

/-- C3 (amended): every parser path produces equal-length time and flux
arrays, and an attached error array is never longer than the time array (it
can be strictly shorter when some accepted rows lack the error column). -/
theorem light_curve_length_invariant (rnd : ℕ → ℚ) (content : List Char)
    (t f : ℕ) (e : Int) (headers : List (List Char)) :
    lcInv (parseCSVDataWithIndices rnd content t f e) ∧
    lcInv (parseKeplerKOIData content headers) ∧
    lcInv (parseTextData content) ∧
    (∀ lc, parseCSVData rnd content = some lc → lcInv lc) := by
  refine ⟨lcInv_parseCSVDataWithIndices rnd content t f e,
    lcInv_parseKeplerKOIData content headers, lcInv_parseTextData content, ?_⟩
  intro lc h
  simp only [parseCSVData] at h
  split_ifs at h <;> simp only [Option.some.injEq] at h
  · exact h ▸ lcInv_parseKeplerKOIData content _
  · exact h ▸ lcInv_parseCSVDataWithIndices rnd content 0 1 2
  · exact h ▸ lcInv_parseCSVDataWithIndices rnd content _ _ _

/-- C3 (witness): the amended invariant instantiated at a concrete CSV, both
directly and through the `parseCSVData` implication at the wide-table input. -/
theorem light_curve_length_invariant_witness :
    lcInv (parseCSVDataWithIndices rnd0 mixedWidthCSV 0 1 2) ∧ lcInv wideEmptyLC :=
  ⟨(light_curve_length_invariant rnd0 mixedWidthCSV 0 1 2 []).1,
   (light_curve_length_invariant rnd0 wideEmptyCSV 0 1 2 []).2.2.2 wideEmptyLC (by decide)⟩

theorem list_len4 {α : Type} (l : List α) (h : l.length = 4) :
    ∃ a b c d, l = [a, b, c, d] := by
  match l with
  | [] => simp at h
  | [a] => simp at h
  | [a, b] => simp at h
  | [a, b, c] => simp at h
  | [a, b, c, d] => exact ⟨a, b, c, d, rfl⟩
  | a :: b :: c :: d :: e :: t => simp at h

theorem parseRow_of_validRow4 (line : List Char) (h : validRow4 line = true) :
    ∃ tv fv ev, parseRow 1 2 3 line = some (tv, fv, some ev) := by
  simp only [validRow4, Bool.and_eq_true, beq_iff_eq, bne_iff_ne, ne_eq,
    Bool.not_eq_true', List.all_eq_true] at h
  obtain ⟨⟨⟨⟨⟨⟨htrim, hlen⟩, hhash⟩, hpct⟩, hempty⟩, hnl⟩, hall⟩ := h
  obtain ⟨a, b, c, d, hsp⟩ := list_len4 _ hlen
  have hqb : (parseFloat (trimChars b)).isSome = true := hall b (by rw [hsp]; simp)
  have hqc : (parseFloat (trimChars c)).isSome = true := hall c (by rw [hsp]; simp)
  obtain ⟨qb, hqb'⟩ := Option.isSome_iff_exists.mp hqb
  obtain ⟨qc, hqc'⟩ := Option.isSome_iff_exists.mp hqc
  refine ⟨qb, qc, (parseFloat (trimChars d)).getD 0, ?_⟩
  simp only [parseRow, htrim, hsp, hempty, hhash, hpct, List.map_cons, List.map_nil,
    List.length_cons, List.length_nil, List.getD, decide_eq_true_eq, hqb', hqc']
  norm_num
  rw [hqb', hqc']
  rfl

theorem parseRows_all_valid (rows : List (List Char)) (h : ∀ l ∈ rows, validRow4 l = true) :
    (parseRows 1 2 3 rows).1.length = rows.length ∧
    (parseRows 1 2 3 rows).2.1.length = rows.length ∧
    (parseRows 1 2 3 rows).2.2.length = rows.length := by
  induction rows with
  | nil => exact ⟨rfl, rfl, rfl⟩
  | cons line rest ih =>
    obtain ⟨tv, fv, ev, hrow⟩ := parseRow_of_validRow4 line (h line (by simp))
    obtain ⟨ih1, ih2, ih3⟩ := ih (fun l hl => h l (by simp [hl]))
    simp only [parseRows, hrow, List.length_cons]
    exact ⟨by omega, by omega, by omega⟩

/-- C9: a CSV whose lines are the header `KIC,TIME,PDCSAP_FLUX,FLUX_ERR`
followed by 100 rows of valid numeric values parses to a light curve of
length 100 with a full (non-empty) error array and `metadata.source = kepler`
(the synonym search picks columns 1/2/3 and the header token `kic` drives the
source detection). -/
theorem parser_tolerance_kepler_header (rnd : ℕ → ℚ) (content : List Char)
    (rows : List (List Char))
    (hsplit : splitChars '\n' (trimChars content) = kicHeaderLine :: rows)
    (hval : ∀ l ∈ rows, validRow4 l = true) (hlen : rows.length = 100) :
    ∃ lc, parseCSVData rnd content = some lc ∧
      lc.time.length = 100 ∧ lc.flux.length = 100 ∧
      (∃ es, lc.error = some es ∧ es.length = 100) ∧
      lc.metadata.source = Source.kepler := by
  obtain ⟨h1, h2, h3⟩ := parseRows_all_valid rows hval
  have hroute : parseCSVData rnd content = some (parseCSVDataWithIndices rnd content 1 2 3) := by
    simp only [parseCSVData, hsplit, List.headD_cons]
    rfl
  have hne : ¬(parseRows 1 2 3 rows).1.length = 0 := by omega
  have hpos : (parseRows 1 2 3 rows).2.2.length > 0 := by omega
  refine ⟨parseCSVDataWithIndices rnd content 1 2 3, hroute, ?_, ?_, ?_, ?_⟩ <;>
    simp only [parseCSVDataWithIndices, hsplit, List.headD_cons, List.tail_cons, if_neg hne]
  · simpa using h1.trans hlen
  · simpa using h2.trans hlen
  · rw [if_pos hpos]
    exact ⟨_, rfl, h3.trans hlen⟩
  · rfl

set_option maxRecDepth 100000 in
/-- C9 (witness): the parser-tolerance theorem applied to a concrete 100-row
Kepler KOI CSV. -/
theorem parser_tolerance_kepler_header_witness :
    ∃ lc, parseCSVData rnd0 witnessCSV = some lc ∧
      lc.time.length = 100 ∧ lc.flux.length = 100 ∧
      (∃ es, lc.error = some es ∧ es.length = 100) ∧
      lc.metadata.source = Source.kepler :=
  parser_tolerance_kepler_header rnd0 witnessCSV witnessRows (by decide)
    (by decide) (by decide)

/-- C10: with the well-formed two-column header `brightness,time`, the token
`brightness` matches both the time synonym search (it contains the letter
`t`) and the flux synonym search, so column 0 is used for both and the parsed
time and flux arrays are element-wise equal. -/
theorem brightness_header_time_flux_collision :
    ∃ lc, parseCSVData rnd0 collisionCSV = some lc ∧
      lc.time = lc.flux ∧ lc.time.length = 2 := by
  refine ⟨_, rfl, ?_, ?_⟩
  · rfl
  · decide

/-- C6: every scalar physics formula returns the `NaN` sentinel (modelled as
`none`, hence never throws) when its numeric preconditions are violated; in
particular `calculateSemiMajorAxis` is `none` for period ≤ 0 or star mass ≤ 0
and a finite positive value otherwise. -/
theorem physics_nan_sentinels :
    (∀ p m : ℝ, p ≤ 0 ∨ m ≤ 0 → calculateSemiMajorAxis p m = none) ∧
    (∀ a m : ℝ, a ≤ 0 ∨ m ≤ 0 → calculateOrbitalPeriod a m = none) ∧
    (∀ r t : ℝ, r ≤ 0 ∨ t ≤ 0 → calculateStellarLuminosity r t = none) ∧
    (∀ t r a : ℝ, t ≤ 0 ∨ r ≤ 0 ∨ a ≤ 0 → calculateEquilibriumTemperature t r a = none) ∧
    (∀ r m : ℝ, r ≤ 0 ∨ m ≤ 0 → calculateSurfaceGravity r m = none) ∧
    (∀ r m : ℝ, r ≤ 0 ∨ m ≤ 0 → calculateEscapeVelocity r m = none) ∧
    (∀ r m : ℝ, r ≤ 0 ∨ m ≤ 0 → calculateDensity r m = none) ∧
    (∀ p m : ℝ, 0 < p → 0 < m → ∃ a, calculateSemiMajorAxis p m = some a ∧ 0 < a) := by
  refine ⟨?_, ?_, ?_, ?_, ?_, ?_, ?_, ?_⟩
  · intro p m h; simp only [calculateSemiMajorAxis, if_pos h]
  · intro a m h; simp only [calculateOrbitalPeriod, if_pos h]
  · intro r t h; simp only [calculateStellarLuminosity, if_pos h]
  · intro t r a h; simp only [calculateEquilibriumTemperature, if_pos h]
  · intro r m h; simp only [calculateSurfaceGravity, if_pos h]
  · intro r m h; simp only [calculateEscapeVelocity, if_pos h]
  · intro r m h; simp only [calculateDensity, if_pos h]
  · intro p m hp hm
    have hguard : ¬(p ≤ 0 ∨ m ≤ 0) := by push_neg; exact ⟨hp, hm⟩
    have hx : 0 < G * (m * M_SUN) * (p * 24.0 * 3600.0) * (p * 24.0 * 3600.0) /
        (4.0 * Real.pi * Real.pi) := by
      unfold G M_SUN
      positivity
    have hAU : (0:ℝ) < AU := by unfold AU; norm_num
    refine ⟨realCbrt (G * (m * M_SUN) * (p * 24.0 * 3600.0) * (p * 24.0 * 3600.0) /
      (4.0 * Real.pi * Real.pi)) / AU, ?_, ?_⟩
    · simp only [calculateSemiMajorAxis, if_neg hguard]
    · exact div_pos (Real.rpow_pos_of_pos hx _) hAU

/-- C6 (witness): the sentinel behaviour at concrete inputs. -/
theorem physics_nan_sentinels_witness :
    calculateSemiMajorAxis 0 1 = none ∧ calculateOrbitalPeriod 0 1 = none ∧
    calculateStellarLuminosity 0 5778 = none ∧ calculateEquilibriumTemperature 0 1 1 = none ∧
    calculateSurfaceGravity 0 1 = none ∧ calculateEscapeVelocity 0 1 = none ∧
    calculateDensity 0 1 = none ∧ (∃ a, calculateSemiMajorAxis 365 1 = some a ∧ 0 < a) :=
  ⟨physics_nan_sentinels.1 0 1 (Or.inl le_rfl),
   physics_nan_sentinels.2.1 0 1 (Or.inl le_rfl),
   physics_nan_sentinels.2.2.1 0 5778 (Or.inl le_rfl),
   physics_nan_sentinels.2.2.2.1 0 1 1 (Or.inl le_rfl),
   physics_nan_sentinels.2.2.2.2.1 0 1 (Or.inl le_rfl),
   physics_nan_sentinels.2.2.2.2.2.1 0 1 (Or.inl le_rfl),
   physics_nan_sentinels.2.2.2.2.2.2.1 0 1 (Or.inl le_rfl),
   physics_nan_sentinels.2.2.2.2.2.2.2 365 1 (by norm_num) (by norm_num)⟩

/-- C1: composing the two Kepler's-third-law functions is the identity for
positive period and star mass (in exact real arithmetic the round-trip is
exact, hence within the claimed 1e-6 relative tolerance). -/
theorem kepler_third_law_roundtrip (p m : ℝ) (hp : 0 < p) (hm : 0 < m) :
    ∃ a T, calculateSemiMajorAxis p m = some a ∧ calculateOrbitalPeriod a m = some T ∧
      |T - p| < 1e-6 * p := by
  have hguard1 : ¬(p ≤ 0 ∨ m ≤ 0) := by push_neg; exact ⟨hp, hm⟩
  have hAU : (0:ℝ) < AU := by unfold AU; norm_num
  set x := G * (m * M_SUN) * (p * 24.0 * 3600.0) * (p * 24.0 * 3600.0) /
    (4.0 * Real.pi * Real.pi) with hxdef
  have hxpos : 0 < x := by rw [hxdef]; unfold G M_SUN; positivity
  have hapos : 0 < realCbrt x / AU := div_pos (Real.rpow_pos_of_pos hxpos _) hAU
  have hguard2 : ¬(realCbrt x / AU ≤ 0 ∨ m ≤ 0) := by push_neg; exact ⟨hapos, hm⟩
  refine ⟨realCbrt x / AU, p, ?_, ?_, ?_⟩
  · simp only [calculateSemiMajorAxis, if_neg hguard1, ← hxdef]
  · simp only [calculateOrbitalPeriod, if_neg hguard2]
    have hcol : realCbrt x / AU * AU = realCbrt x := div_mul_cancel₀ _ (ne_of_gt hAU)
    rw [hcol]
    have hcube : realCbrt x * realCbrt x * realCbrt x = x := by
      unfold realCbrt
      rw [← Real.rpow_add hxpos, ← Real.rpow_add hxpos]
      norm_num
    have hGM : (0:ℝ) < G * (m * M_SUN) := by unfold G M_SUN; positivity
    have h4pi : (0:ℝ) < 4.0 * Real.pi * Real.pi := by positivity
    have hinner : 4.0 * Real.pi * Real.pi * realCbrt x * realCbrt x * realCbrt x /
        (G * (m * M_SUN)) = (p * 24.0 * 3600.0) * (p * 24.0 * 3600.0) := by
      rw [hxdef] at hcube
      rw [div_eq_iff (ne_of_gt hGM)]
      rw [eq_div_iff (ne_of_gt h4pi)] at hcube
      linear_combination hcube
    rw [hinner, Real.sqrt_mul_self (by positivity : (0:ℝ) ≤ p * 24.0 * 3600.0)]
    congr 1
    ring_nf
  · simp only [sub_self, abs_zero]
    positivity

/-- C1 (witness): the round-trip at period 365 days and one solar mass. -/
theorem kepler_third_law_roundtrip_witness :
    ∃ a T, calculateSemiMajorAxis 365 1 = some a ∧ calculateOrbitalPeriod a 1 = some T ∧
      |T - 365| < 1e-6 * 365 :=
  kepler_third_law_roundtrip 365 1 (by norm_num) (by norm_num)

theorem rpow_18_lt : (1.5:ℝ) ^ ((1.8:ℝ)) < 2.25 := by
  have h1 : (1.5:ℝ) ^ ((1.8:ℝ)) < (1.5:ℝ) ^ (((2:ℕ)):ℝ) := by
    rw [Real.rpow_lt_rpow_left_iff (by norm_num : (1:ℝ) < 1.5)]
    norm_num
  calc (1.5:ℝ) ^ ((1.8:ℝ)) < (1.5:ℝ) ^ (((2:ℕ)):ℝ) := h1
    _ = 2.25 := by rw [Real.rpow_natCast]; norm_num

theorem rpow_25_gt : (2.7:ℝ) < (1.5:ℝ) ^ ((2.5:ℝ)) := by
  have hsplit : (1.5:ℝ) ^ ((2.5:ℝ)) = (1.5:ℝ) ^ (((2:ℕ)):ℝ) * (1.5:ℝ) ^ ((0.5:ℝ)) := by
    rw [← Real.rpow_add (by norm_num : (0:ℝ) < 1.5)]
    norm_num
  have h2 : (1.5:ℝ) ^ (((2:ℕ)):ℝ) = 2.25 := by
    rw [Real.rpow_natCast]
    norm_num
  have hsqrt : (1.5:ℝ) ^ ((0.5:ℝ)) = Real.sqrt 1.5 := by
    rw [Real.sqrt_eq_rpow]
    norm_num
  have h12 : (1.2:ℝ) < Real.sqrt 1.5 := by
    rw [Real.lt_sqrt (by norm_num)]
    norm_num
  rw [hsplit, h2, hsqrt]
  nlinarith [h12]

/-- C4 (counterexample): the two branches of the empirical mass–radius law do
not meet at the 1.5 Earth-radius breakpoint — `1.5^1.8 ≈ 2.07` while the
branch taken at 1.5 gives `1.5^2.5 ≈ 2.76`, so the difference is not below
1e-6. -/
theorem mass_radius_breakpoint_discontinuous :
    ¬(|estimateMassFromRadius 1.5 - (1.5:ℝ) ^ ((1.8:ℝ))| < 1e-6) := by
  have hval : estimateMassFromRadius 1.5 = (1.5:ℝ) ^ ((2.5:ℝ)) := by
    unfold estimateMassFromRadius
    rw [if_neg (lt_irrefl (1.5:ℝ)), if_pos (by norm_num : (1.5:ℝ) < 4)]
  rw [hval, abs_of_pos (by linarith [rpow_18_lt, rpow_25_gt])]
  exact not_lt.mpr (by linarith [rpow_18_lt, rpow_25_gt])

/-- C4 (amended): the estimator is discontinuous at the 1.5 R⊕ breakpoint:
the R<1.5 branch is `r^1.8`, the value at 1.5 is `1.5^2.5`, and the two
branch values at the breakpoint differ by more than 0.4. -/
theorem mass_radius_breakpoint_gap :
    (∀ r : ℝ, r < 1.5 → estimateMassFromRadius r = r ^ ((1.8:ℝ))) ∧
    estimateMassFromRadius 1.5 = (1.5:ℝ) ^ ((2.5:ℝ)) ∧
    0.4 < estimateMassFromRadius 1.5 - (1.5:ℝ) ^ ((1.8:ℝ)) := by
  have hval : estimateMassFromRadius 1.5 = (1.5:ℝ) ^ ((2.5:ℝ)) := by
    unfold estimateMassFromRadius
    rw [if_neg (lt_irrefl (1.5:ℝ)), if_pos (by norm_num : (1.5:ℝ) < 4)]
  refine ⟨?_, hval, ?_⟩
  · intro r hr
    unfold estimateMassFromRadius
    rw [if_pos hr]
  · rw [hval]
    linarith [rpow_18_lt, rpow_25_gt]

/-- C4 (witness): the amended statement exercised at radius 1 (small branch)
and at the breakpoint. -/
theorem mass_radius_breakpoint_gap_witness :
    estimateMassFromRadius 1 = (1:ℝ) ^ ((1.8:ℝ)) ∧
    estimateMassFromRadius 1.5 = (1.5:ℝ) ^ ((2.5:ℝ)) :=
  ⟨mass_radius_breakpoint_gap.1 1 (by norm_num), mass_radius_breakpoint_gap.2.1⟩

/-- C5: the composite calculation's plausibility verdict is true iff the
accumulated warning list is empty; validating radius 0.3 produces a warning
containing "radius"; the Earth-like input (radius 1, mass 1) validates with
zero warnings (its density ≈ 5.5 g/cm³ passes the density rule). -/
theorem plausibility_validator_spec :
    (∀ inp : PhysicsCalculationInput,
      (calculate inp).isPhysicallyPlausible = true ↔ (calculate inp).warnings = []) ∧
    (∃ w ∈ validatePhysicalPlausibility inpSmallRadius, includes w.toList "radius" = true) ∧
    validatePhysicalPlausibility inpEarthLike = [] := by
  refine ⟨?_, ?_, ?_⟩
  · intro inp
    have h1 : (calculate inp).isPhysicallyPlausible =
        ((validatePhysicalPlausibility inp).length == 0) := rfl
    have h2 : (calculate inp).warnings = validatePhysicalPlausibility inp := rfl
    rw [h1, h2]
    simp [List.length_eq_zero]
  · have hsmall : validatePhysicalPlausibility inpSmallRadius =
        ["Planet radius very small (< 0.5 R⊕)"] := by
      simp only [validatePhysicalPlausibility, inpSmallRadius]
      norm_num
    refine ⟨"Planet radius very small (< 0.5 R⊕)", ?_, ?_⟩
    · rw [hsmall]
      simp
    · decide
  · have hguard : ¬((1.0:ℝ) ≤ 0 ∨ (1.0:ℝ) ≤ 0) := by norm_num
    have hcden : calculateDensity (1.0:ℝ) 1.0 = some ((1.0 * M_EARTH) /
        ((4.0 / 3.0) * Real.pi * (1.0 * R_EARTH) * (1.0 * R_EARTH) * (1.0 * R_EARTH)) /
        1000.0) := by
      simp only [calculateDensity, if_neg hguard]
    have hV : (0:ℝ) < (4.0 / 3.0) * Real.pi * (1.0 * R_EARTH) * (1.0 * R_EARTH) *
        (1.0 * R_EARTH) := by
      unfold R_EARTH
      positivity
    have hdlo : ¬((1.0 * M_EARTH) /
        ((4.0 / 3.0) * Real.pi * (1.0 * R_EARTH) * (1.0 * R_EARTH) * (1.0 * R_EARTH)) /
        1000.0 < 0.3) := by
      rw [div_div, not_lt, le_div_iff₀ (by positivity)]
      unfold M_EARTH R_EARTH
      nlinarith [Real.pi_lt_d2, Real.pi_gt_three]
    have hdhi : ¬((1.0 * M_EARTH) /
        ((4.0 / 3.0) * Real.pi * (1.0 * R_EARTH) * (1.0 * R_EARTH) * (1.0 * R_EARTH)) /
        1000.0 > 14) := by
      rw [div_div, gt_iff_lt, not_lt, div_le_iff₀ (by positivity)]
      unfold M_EARTH R_EARTH
      nlinarith [Real.pi_lt_d2, Real.pi_gt_three]
    simp only [validatePhysicalPlausibility, inpEarthLike, hcden]
    rw [if_neg (by norm_num : ¬((1.0:ℝ) < 0.5)), if_neg (by norm_num : ¬((1.0:ℝ) > 10)),
      if_neg (by norm_num : ¬((1.0:ℝ) < 0.1)), if_neg (by norm_num : ¬((1.0:ℝ) > 1000)),
      if_neg hdlo, if_neg hdhi]
    simp

/-- C8: the composite calculation never overwrites caller-provided fields —
a provided orbital period or semi-major axis is returned verbatim, the
defaults (365 days, 1 AU, star radius 1 solar) are used only when the field
is absent, and a provided stellar luminosity and star radius flow through
unchanged. -/
theorem calculate_preserves_provided_fields (inp : PhysicsCalculationInput)
    (p a r L : ℝ) :
    (inp.orbitalPeriodDays = some p → (calculate inp).orbitalPeriodDays = some p) ∧
    (inp.semiMajorAxisAU = some a → (calculate inp).semiMajorAxisAU = some a) ∧
    (inp.orbitalPeriodDays = none → inp.semiMajorAxisAU = none →
      (calculate inp).orbitalPeriodDays = some 365 ∧
      (calculate inp).semiMajorAxisAU = some 1.0) ∧
    (inp.starLuminositySolar = some L → (calculate inp).starLuminositySolar = some L) ∧
    (inp.starRadiusSolar = some r → (calculate inp).starRadiusM = r * R_SUN) ∧
    (inp.starRadiusSolar = none → (calculate inp).starRadiusM = 1.0 * R_SUN) := by
  have hop : (calculate inp).orbitalPeriodDays =
      (if inp.semiMajorAxisAU.isSome && inp.orbitalPeriodDays.isNone then
        calculateOrbitalPeriod (inp.semiMajorAxisAU.getD 1.0) (inp.starMassSolar.getD 1.0)
      else some (inp.orbitalPeriodDays.getD 365)) := rfl
  have hsa : (calculate inp).semiMajorAxisAU =
      (if inp.orbitalPeriodDays.isSome && inp.semiMajorAxisAU.isNone then
        calculateSemiMajorAxis (inp.orbitalPeriodDays.getD 365) (inp.starMassSolar.getD 1.0)
      else some (inp.semiMajorAxisAU.getD 1.0)) := rfl
  have hlum : (calculate inp).starLuminositySolar =
      (match inp.starLuminositySolar with
       | some l => some l
       | none => calculateStellarLuminosity (inp.starRadiusSolar.getD 1.0)
          (inp.starTempK.getD 5778)) := rfl
  have hrad : (calculate inp).starRadiusM = inp.starRadiusSolar.getD 1.0 * R_SUN := rfl
  refine ⟨?_, ?_, ?_, ?_, ?_, ?_⟩
  · intro h
    rw [hop, h]
    simp
  · intro h
    rw [hsa, h]
    simp
  · intro h1 h2
    rw [hop, hsa, h1, h2]
    simp
  · intro h
    rw [hlum, h]
  · intro h
    rw [hrad, h]
    simp
  · intro h
    rw [hrad, h]
    simp

/-- C8 (witness): the frame condition at a concrete fully-provided input. -/
theorem calculate_preserves_provided_fields_witness :
    (calculate inpC8).orbitalPeriodDays = some 10 ∧
    (calculate inpC8).semiMajorAxisAU = some 2 ∧
    (calculate inpC8).starLuminositySolar = some 4 ∧
    (calculate inpC8).starRadiusM = 3 * R_SUN :=
  ⟨(calculate_preserves_provided_fields inpC8 10 2 3 4).1 rfl,
   (calculate_preserves_provided_fields inpC8 10 2 3 4).2.1 rfl,
   (calculate_preserves_provided_fields inpC8 10 2 3 4).2.2.2.1 rfl,
   (calculate_preserves_provided_fields inpC8 10 2 3 4).2.2.2.2.1 rfl⟩

/-- C7 (counterexample): when the external scorer fails, `predict` completes
with the substitute `getMockPrediction` instead of surfacing a typed failure:
at a concrete input the result is exactly the mock prediction, with
probability 0.7 (for random sample 0) and absent dataset-characteristic
fields. -/
theorem scorer_failure_returns_mock :
    predict (some (Except.error "tensor conversion failed")) 0 0 dataEx =
      getMockPrediction 0 dataEx ∧
    (predict (some (Except.error "tensor conversion failed")) 0 0 dataEx).probability = 0.7 ∧
    (predict (some (Except.error "tensor conversion failed")) 0 0 dataEx).timePoints = none := by
  refine ⟨rfl, ?_, rfl⟩
  show (0.7:ℝ) + 0 * 0.25 = 0.7
  norm_num

/-- C7 (amended): scorer failures are swallowed, not surfaced: on the error
branch `predict` always completes with `getMockPrediction`, whose probability
is the random substitute `0.7 + rnd·0.25 ∈ [0.7, 0.95]`; the total return
type carries no error channel and no finiteness check exists on scorer
output. -/
theorem scorer_failure_substitute_result (e : String) (rs rm : ℝ)
    (data : LightCurveData) (h0 : 0 ≤ rm) (h1 : rm ≤ 1) :
    predict (some (Except.error e)) rs rm data = getMockPrediction rm data ∧
    0.7 ≤ (predict (some (Except.error e)) rs rm data).probability ∧
    (predict (some (Except.error e)) rs rm data).probability ≤ 0.95 := by
  refine ⟨rfl, ?_, ?_⟩
  · show (0.7:ℝ) ≤ 0.7 + rm * 0.25
    nlinarith
  · show (0.7:ℝ) + rm * 0.25 ≤ 0.95
    nlinarith

/-- C7 (witness): the substitute-result behaviour at a concrete failure. -/
theorem scorer_failure_substitute_result_witness :
    predict (some (Except.error "boom")) 0 (1 / 2) dataEx =
      getMockPrediction (1 / 2) dataEx ∧
    0.7 ≤ (predict (some (Except.error "boom")) 0 (1 / 2) dataEx).probability ∧
    (predict (some (Except.error "boom")) 0 (1 / 2) dataEx).probability ≤ 0.95 :=
  scorer_failure_substitute_result "boom" 0 (1 / 2) dataEx (by norm_num) (by norm_num)

end NasaExo
